import Mathlib

/-!
Shallow embedding of the Ultimate Mortgage Calculator pricing engine.

The repository computes every derived figure inside React components
(`MortgageCalculatorMismo.tsx` and near-identical variants); the derived
constants of those components are pure functions of the input state, so
each one is translated here as a Lean function over a `ScenarioInput`
record.  Numbers are modelled by `ℚ` (JavaScript number arithmetic is
idealised as exact rational arithmetic); the loan term is restricted to a
whole number of years so that the amortization exponent
`Math.pow(1 + r, -nper)` is the rational `((1 + r) ^ nper)⁻¹`.

The engine input carries the `pureCashOut` flag present in the
`MortgageCalculatorMismo - Copy.tsx` variant; the main variant has no such
input, which coincides with the flag held at `false`.
-/

namespace UltimateMortgage

/-- The loan program selector (`loanType` in the source, a string with the
four values "Conventional", "VA", "FHA", "VA IRRRL"). -/
inductive LoanProgram
  | Conventional
  | VA
  | FHA
  | VA_IRRRL
  deriving DecidableEq, Repr

/-- Result of `deriveBgTier` in the source: one of the strings
"BG1".."BG4" or the em-dash "—", modelled as `noTier`. -/
inductive BgTier
  | BG1
  | BG2
  | BG3
  | BG4
  | noTier
  deriving DecidableEq, Repr

/-- The (already numerically normalized) input state of the calculator
component.  Every numeric field is the value the utility `n` produces for
the corresponding React state. -/
structure ScenarioInput where
  loanType : LoanProgram
  appraisedValue : ℚ
  balance : ℚ
  cashOut : ℚ
  monthlyEscrow : ℚ
  escrowMonths : ℚ
  bankFee : ℚ
  titleFee : ℚ
  isFundingFeeExempt : Bool
  mortgageInsuranceRate : ℚ
  uwmPoints : ℚ
  branchGenPointsInput : ℚ
  interestRate : ℚ
  termYears : ℕ
  twoOneBuydown : Bool
  oneZeroBuydown : Bool
  debtPaid : ℚ
  debtMonthly : ℚ
  currentPITI : ℚ
  pureCashOut : Bool

/-- `const VA_FUNDING_FEE_RATE = 0.033`. -/
def VA_FUNDING_FEE_RATE : ℚ := 0.033

/-- `const VA_IRRRL_FEE_RATE = 0.005`. -/
def VA_IRRRL_FEE_RATE : ℚ := 0.005

/-- `const FHA_UFMIP_RATE = 0.0175`. -/
def FHA_UFMIP_RATE : ℚ := 0.0175

/-- `const FHA_ANNUAL_MIP = 0.0055`. -/
def FHA_ANNUAL_MIP : ℚ := 0.0055

/-- `escrowCost = n(monthlyEscrow) * n(escrowMonths)`. -/
def escrowCost (i : ScenarioInput) : ℚ := i.monthlyEscrow * i.escrowMonths

/-- `effectiveCashOut = loanType === "VA IRRRL" ? 0 : n(cashOut)`. -/
def effectiveCashOut (i : ScenarioInput) : ℚ :=
  if i.loanType = LoanProgram.VA_IRRRL then 0 else i.cashOut

/-- `baseLoanBeforePoints = n(balance) + n(bankFee) + n(titleFee) + escrowCost + effectiveCashOut`. -/
def baseLoanBeforePoints (i : ScenarioInput) : ℚ :=
  i.balance + i.bankFee + i.titleFee + escrowCost i + effectiveCashOut i

/-- `fundingFee = !isFundingFeeExempt ? (VA ? base*0.033 : VA IRRRL ? base*0.005 : 0) : 0`. -/
def fundingFee (i : ScenarioInput) : ℚ :=
  if i.isFundingFeeExempt = false then
    (if i.loanType = LoanProgram.VA then baseLoanBeforePoints i * VA_FUNDING_FEE_RATE
     else if i.loanType = LoanProgram.VA_IRRRL then baseLoanBeforePoints i * VA_IRRRL_FEE_RATE
     else 0)
  else 0

/-- `ufmip = loanType === "FHA" ? baseLoanBeforePoints * FHA_UFMIP_RATE : 0`
(note: not gated on the exemption flag). -/
def ufmip (i : ScenarioInput) : ℚ :=
  if i.loanType = LoanProgram.FHA then baseLoanBeforePoints i * FHA_UFMIP_RATE else 0

/-- `baseLoanWithGovFee = baseLoanBeforePoints + fundingFee + ufmip`. -/
def baseLoanWithGovFee (i : ScenarioInput) : ℚ :=
  baseLoanBeforePoints i + fundingFee i + ufmip i

/-- The single "government fee" of the spec: by program the two source
fees `fundingFee` and `ufmip` are mutually exclusive, so their sum is the
fee actually charged. -/
def governmentFee (i : ScenarioInput) : ℚ := fundingFee i + ufmip i

/-- `totalPointsEntered = n(uwmPoints) + n(branchGenPointsInput)`. -/
def totalPointsEntered (i : ScenarioInput) : ℚ := i.uwmPoints + i.branchGenPointsInput

/-- `pointsCost = baseLoanWithGovFee * (totalPointsEntered / 100)`. -/
def pointsCost (i : ScenarioInput) : ℚ :=
  baseLoanWithGovFee i * (totalPointsEntered i / 100)

/-- `baseTotalCostsNoBuydown = n(bankFee) + n(titleFee) + escrowCost + pointsCost + fundingFee + ufmip`. -/
def baseTotalCostsNoBuydown (i : ScenarioInput) : ℚ :=
  i.bankFee + i.titleFee + escrowCost i + pointsCost i + fundingFee i + ufmip i

/-- `finalLoanPreBuydown = n(balance) + effectiveCashOut + baseTotalCostsNoBuydown`. -/
def finalLoanPreBuydown (i : ScenarioInput) : ℚ :=
  i.balance + effectiveCashOut i + baseTotalCostsNoBuydown i

/-- The source helper

```
const monthlyPI = (aprPct, principal, termYearsLocal) => {
  const r = Math.max(0, aprPct) / 100 / 12;
  const nper = Math.max(1, termYearsLocal * 12);
  if (r === 0) return principal / nper;
  return (principal * r) / (1 - Math.pow(1 + r, -nper));
};
```

with the term in whole years, so `nper` is a positive natural number and
the negative power is `((1 + r) ^ nper)⁻¹`. -/
def monthlyPI (aprPct principal : ℚ) (termYearsLocal : ℕ) : ℚ :=
  let r := max 0 aprPct / 100 / 12
  let nper : ℕ := max 1 (termYearsLocal * 12)
  if r = 0 then principal / (nper : ℚ)
  else principal * r / (1 - ((1 + r) ^ nper)⁻¹)

/-- `PI_pre = monthlyPI(n(interestRate), finalLoanPreBuydown, n(termYears))`. -/
def PI_pre (i : ScenarioInput) : ℚ :=
  monthlyPI i.interestRate (finalLoanPreBuydown i) i.termYears

/-- `mipMonthly_pre = loanType === "FHA" ? (finalLoanPreBuydown * FHA_ANNUAL_MIP) / 12 : 0`. -/
def mipMonthly_pre (i : ScenarioInput) : ℚ :=
  if i.loanType = LoanProgram.FHA then finalLoanPreBuydown i * FHA_ANNUAL_MIP / 12 else 0

/-- `ltv_pre = n(appraisedValue) > 0 ? (finalLoanPreBuydown / n(appraisedValue)) * 100 : 0`. -/
def ltv_pre (i : ScenarioInput) : ℚ :=
  if i.appraisedValue > 0 then finalLoanPreBuydown i / i.appraisedValue * 100 else 0

/-- `miMonthly_pre = Conventional && ltv_pre > 80 ? (finalLoanPreBuydown * n(mortgageInsuranceRate)) / 12 : 0`. -/
def miMonthly_pre (i : ScenarioInput) : ℚ :=
  if i.loanType = LoanProgram.Conventional ∧ ltv_pre i > 80 then
    finalLoanPreBuydown i * i.mortgageInsuranceRate / 12
  else 0

/-- `basePITI_pre = PI_pre + n(monthlyEscrow) + mipMonthly_pre + miMonthly_pre`. -/
def basePITI_pre (i : ScenarioInput) : ℚ :=
  PI_pre i + i.monthlyEscrow + mipMonthly_pre i + miMonthly_pre i

/-- `y1RatePct_pre = (Conventional && (twoOne || oneZero)) ? (twoOne ? rate - 2 : rate - 1) : rate`. -/
def y1RatePct_pre (i : ScenarioInput) : ℚ :=
  if i.loanType = LoanProgram.Conventional ∧ (i.twoOneBuydown = true ∨ i.oneZeroBuydown = true) then
    (if i.twoOneBuydown = true then i.interestRate - 2 else i.interestRate - 1)
  else i.interestRate

/-- `y2RatePct_pre = (Conventional && twoOne) ? rate - 1 : rate`. -/
def y2RatePct_pre (i : ScenarioInput) : ℚ :=
  if i.loanType = LoanProgram.Conventional ∧ i.twoOneBuydown = true then
    i.interestRate - 1
  else i.interestRate

/-- `y1PI_pre = monthlyPI(y1RatePct_pre, finalLoanPreBuydown, n(termYears))`. -/
def y1PI_pre (i : ScenarioInput) : ℚ :=
  monthlyPI (y1RatePct_pre i) (finalLoanPreBuydown i) i.termYears

/-- `y2PI_pre = monthlyPI(y2RatePct_pre, finalLoanPreBuydown, n(termYears))`. -/
def y2PI_pre (i : ScenarioInput) : ℚ :=
  monthlyPI (y2RatePct_pre i) (finalLoanPreBuydown i) i.termYears

/-- `y1PITI_pre = y1PI_pre + n(monthlyEscrow) + mipMonthly_pre + miMonthly_pre`. -/
def y1PITI_pre (i : ScenarioInput) : ℚ :=
  y1PI_pre i + i.monthlyEscrow + mipMonthly_pre i + miMonthly_pre i

/-- `y2PITI_pre = y2PI_pre + n(monthlyEscrow) + mipMonthly_pre + miMonthly_pre`. -/
def y2PITI_pre (i : ScenarioInput) : ℚ :=
  y2PI_pre i + i.monthlyEscrow + mipMonthly_pre i + miMonthly_pre i

/-- `diffY1 = Math.max(0, basePITI_pre - y1PITI_pre)`. -/
def diffY1 (i : ScenarioInput) : ℚ := max 0 (basePITI_pre i - y1PITI_pre i)

/-- `diffY2 = twoOneBuydown ? Math.max(0, basePITI_pre - y2PITI_pre) : 0`. -/
def diffY2 (i : ScenarioInput) : ℚ :=
  if i.twoOneBuydown = true then max 0 (basePITI_pre i - y2PITI_pre i) else 0

/-- `buydownSubsidyCost = Conventional && (twoOne || oneZero) ? diffY1*12 + (twoOne ? diffY2*12 : 0) : 0`.
Note the condition tests only the program and the raw buydown flags — the
effective cash-out does not occur in it. -/
def buydownSubsidyCost (i : ScenarioInput) : ℚ :=
  if i.loanType = LoanProgram.Conventional ∧ (i.twoOneBuydown = true ∨ i.oneZeroBuydown = true) then
    diffY1 i * 12 + (if i.twoOneBuydown = true then diffY2 i * 12 else 0)
  else 0

/-- `finalLoanAmount = finalLoanPreBuydown + buydownSubsidyCost`. -/
def finalLoanAmount (i : ScenarioInput) : ℚ :=
  finalLoanPreBuydown i + buydownSubsidyCost i

/-- `PI = monthlyPI(n(interestRate), finalLoanAmount, n(termYears))`. -/
def PI (i : ScenarioInput) : ℚ :=
  monthlyPI i.interestRate (finalLoanAmount i) i.termYears

/-- `mipMonthly = loanType === "FHA" ? (finalLoanAmount * FHA_ANNUAL_MIP) / 12 : 0`. -/
def mipMonthly (i : ScenarioInput) : ℚ :=
  if i.loanType = LoanProgram.FHA then finalLoanAmount i * FHA_ANNUAL_MIP / 12 else 0

/-- `ltv = n(appraisedValue) > 0 ? (finalLoanAmount / n(appraisedValue)) * 100 : 0`. -/
def ltv (i : ScenarioInput) : ℚ :=
  if i.appraisedValue > 0 then finalLoanAmount i / i.appraisedValue * 100 else 0

/-- `miMonthly = Conventional && ltv > 80 ? (finalLoanAmount * n(mortgageInsuranceRate)) / 12 : 0`. -/
def miMonthly (i : ScenarioInput) : ℚ :=
  if i.loanType = LoanProgram.Conventional ∧ ltv i > 80 then
    finalLoanAmount i * i.mortgageInsuranceRate / 12
  else 0

/-- `basePITI = PI + n(monthlyEscrow) + mipMonthly + miMonthly`. -/
def basePITI (i : ScenarioInput) : ℚ :=
  PI i + i.monthlyEscrow + mipMonthly i + miMonthly i

/-- `isConsolidating = effectiveCashOut > 0 && !pureCashOut && (n(debtPaid) > 0 || n(debtMonthly) > 0)`
(the Copy variant; the main variant omits the middle conjunct because it
has no `pureCashOut` state, matching `pureCashOut = false`). -/
def isConsolidating (i : ScenarioInput) : Prop :=
  effectiveCashOut i > 0 ∧ i.pureCashOut = false ∧ (i.debtPaid > 0 ∨ i.debtMonthly > 0)

instance (i : ScenarioInput) : Decidable (isConsolidating i) := by
  unfold isConsolidating
  infer_instance

/-- `debtPaidApplied = isConsolidating ? Math.min(effectiveCashOut, n(debtPaid)) : 0`. -/
def debtPaidApplied (i : ScenarioInput) : ℚ :=
  if isConsolidating i then min (effectiveCashOut i) i.debtPaid else 0

/-- `cashToBorrower = isConsolidating ? Math.max(0, effectiveCashOut - debtPaidApplied) : effectiveCashOut`. -/
def cashToBorrower (i : ScenarioInput) : ℚ :=
  if isConsolidating i then max 0 (effectiveCashOut i - debtPaidApplied i)
  else effectiveCashOut i

/-- `prevPITI = n(currentPITI)`. -/
def prevPITI (i : ScenarioInput) : ℚ := i.currentPITI

/-- `savingsVsPrev = Math.max(0, prevPITI - basePITI)`. -/
def savingsVsPrev (i : ScenarioInput) : ℚ := max 0 (prevPITI i - basePITI i)

/-- The source tier derivation

```
const deriveBgTier = (bgPct) => {
  if (bgPct >= 2.25 && bgPct <= 3.0) return "BG1";
  if (bgPct >= 1.5 && bgPct < 2.25) return "BG2";
  if (bgPct >= 0.75 && bgPct < 1.5) return "BG3";
  if (bgPct > 0 && bgPct <= 0.74) return "BG4";
  if (bgPct === 0) return "—";
  return "—";
};
``` -/
def deriveBgTier (bgPct : ℚ) : BgTier :=
  if bgPct ≥ 2.25 ∧ bgPct ≤ 3.0 then BgTier.BG1
  else if bgPct ≥ 1.5 ∧ bgPct < 2.25 then BgTier.BG2
  else if bgPct ≥ 0.75 ∧ bgPct < 1.5 then BgTier.BG3
  else if bgPct > 0 ∧ bgPct ≤ 0.74 then BgTier.BG4
  else if bgPct = 0 then BgTier.noTier
  else BgTier.noTier

/-- `LO_COMP_BPS = { BG1: 100, BG2: 75, BG3: 50, BG4: 25 }`, with the
record lookup `?? 0` fallback for the "—" key. -/
def LO_COMP_BPS : BgTier → ℚ
  | BgTier.BG1 => 100
  | BgTier.BG2 => 75
  | BgTier.BG3 => 50
  | BgTier.BG4 => 25
  | BgTier.noTier => 0

/-- `LOA_COMP_BPS = { BG1: 80, BG2: 60, BG3: 50, BG4: 25 }`, with the
record lookup `?? 0` fallback for the "—" key. -/
def LOA_COMP_BPS : BgTier → ℚ
  | BgTier.BG1 => 80
  | BgTier.BG2 => 60
  | BgTier.BG3 => 50
  | BgTier.BG4 => 25
  | BgTier.noTier => 0

/-- `inferredBgTier = deriveBgTier(n(branchGenPointsInput))`. -/
def inferredBgTier (i : ScenarioInput) : BgTier := deriveBgTier i.branchGenPointsInput

/-- `loCompensation = finalLoanAmount * (loCompBps / 10000)`. -/
def loCompensation (i : ScenarioInput) : ℚ :=
  finalLoanAmount i * (LO_COMP_BPS (inferredBgTier i) / 10000)

/-- `loaCompensation = finalLoanAmount * (loaCompBps / 10000)`. -/
def loaCompensation (i : ScenarioInput) : ℚ :=
  finalLoanAmount i * (LOA_COMP_BPS (inferredBgTier i) / 10000)

/-! ## Input-boundary normalization and reactive defaults -/

/-- A JavaScript value arriving at the numeric normalizer `n`: the blank
sentinel `""` (also covering `undefined`/`null`), an actual finite
number, or a value whose `Number(...)` conversion is not finite (a
non-numeric string gives `NaN`, an overflowing literal gives
`Infinity`). -/
inductive NumField
  | blank
  | num (q : ℚ)
  | nonNumeric

/-- The main variant utility
`const n = (v) => (v === "" || v === undefined || v === null ? 0 : Number(v));`
— `Number(v)` of a non-numeric string is `NaN`, modelled as `none`. -/
def nMain : NumField → Option ℚ
  | NumField.blank => some 0
  | NumField.num q => some q
  | NumField.nonNumeric => none

/-- The Copy variant utility, which additionally guards with `isFinite`:

```
const n = (v) => {
  if (v === "" || v === undefined || v === null) return 0;
  const num = typeof v === "string" ? Number(v) : v;
  return isFinite(Number(num)) ? Number(num) : 0;
};
``` -/
def nCopy : NumField → ℚ
  | NumField.blank => 0
  | NumField.num q => q
  | NumField.nonNumeric => 0

/-- The main variant effect

```
useEffect(() => {
  if (bankFee === "") {
    setBankFee(loanType === "VA IRRRL" ? 1500 : 2350);
  }
}, [loanType, bankFee]);
```

as a function from the raw bank-fee field (`none` = blank) to the field
value after the effect has run. -/
def bankFeeDefaultEffect (loanType : LoanProgram) (bankFee : Option ℚ) : Option ℚ :=
  match bankFee with
  | none => some (if loanType = LoanProgram.VA_IRRRL then 1500 else 2350)
  | some q => some q

/-! ## Spec-side definitions (used for refinement comparisons) -/

/-- Modelled from the spec text of section 4.1: the government-fee rate
table — VA 3.3 percent, VA IRRRL 0.5 percent, both zeroed by the
exemption flag; FHA UFMIP 1.75 percent charged regardless of the flag;
Conventional zero. -/
def specGovFeeRate (p : LoanProgram) (exempt : Bool) : ℚ :=
  match p with
  | LoanProgram.VA => if exempt then 0 else 0.033
  | LoanProgram.VA_IRRRL => if exempt then 0 else 0.005
  | LoanProgram.FHA => 0.0175
  | LoanProgram.Conventional => 0

/-- The tier step function exactly as claim C6 words it: `[2.25, 3.00] →
Tier1`, `[1.50, 2.25) → Tier2`, `[0.75, 1.50) → Tier3`, `(0, 0.74] →
Tier4`, everything else (including 0) → none. -/
def specTier (bg : ℚ) : BgTier :=
  if 2.25 ≤ bg ∧ bg ≤ 3.00 then BgTier.BG1
  else if 1.50 ≤ bg ∧ bg < 2.25 then BgTier.BG2
  else if 0.75 ≤ bg ∧ bg < 1.50 then BgTier.BG3
  else if 0 < bg ∧ bg ≤ 0.74 then BgTier.BG4
  else BgTier.noTier

/-- The monthly mortgage-insurance formula exactly as claim C4 words it,
with the annual rate supplied in percent (0.6 meaning 0.6 percent):
`finalLoanAmount * mortgageInsuranceAnnualRatePercent / 12` when
Conventional and LTV above 80, else 0. -/
def specMiMonthlyClaim (p : LoanProgram) (loanAmount ltvPct annualRatePct : ℚ) : ℚ :=
  if p = LoanProgram.Conventional ∧ ltvPct > 80 then loanAmount * annualRatePct / 12
  else 0

/-- The corrected monthly mortgage-insurance formula: the annual percent
rate enters divided by 100 (the source stores the fraction 0.006 for a
displayed 0.600 percent). -/
def specMiMonthlyAmended (p : LoanProgram) (loanAmount ltvPct annualRatePct : ℚ) : ℚ :=
  if p = LoanProgram.Conventional ∧ ltvPct > 80 then loanAmount * (annualRatePct / 100) / 12
  else 0

/-! ## Concrete scenario inputs -/

/-- Conventional scenario with a 2/1 buydown flag still set while
cash-out is 10000 (reachable in the UI by selecting the buydown first and
entering the cash-out afterwards; no effect clears the flag). -/
def inputC1 : ScenarioInput :=
  { loanType := LoanProgram.Conventional
    appraisedValue := 0
    balance := 100000
    cashOut := 10000
    monthlyEscrow := 0
    escrowMonths := 2
    bankFee := 0
    titleFee := 0
    isFundingFeeExempt := false
    mortgageInsuranceRate := 0.006
    uwmPoints := 0
    branchGenPointsInput := 0
    interestRate := 6
    termYears := 1
    twoOneBuydown := true
    oneZeroBuydown := false
    debtPaid := 0
    debtMonthly := 0
    currentPITI := 0
    pureCashOut := false }

/-- The section 8 reference scenario: Conventional, balance 300000, bank
fee 2350, rate 6.5 percent, 30 years, appraised value 400000, everything
else zero. -/
def inputC2 : ScenarioInput :=
  { loanType := LoanProgram.Conventional
    appraisedValue := 400000
    balance := 300000
    cashOut := 0
    monthlyEscrow := 0
    escrowMonths := 2
    bankFee := 2350
    titleFee := 0
    isFundingFeeExempt := false
    mortgageInsuranceRate := 0.006
    uwmPoints := 0
    branchGenPointsInput := 0
    interestRate := 6.5
    termYears := 30
    twoOneBuydown := false
    oneZeroBuydown := false
    debtPaid := 0
    debtMonthly := 0
    currentPITI := 0
    pureCashOut := false }

/-- Conventional scenario with LTV 90 percent and the default stored
mortgage-insurance rate 0.006 (displayed as 0.600 percent). -/
def inputC4 : ScenarioInput :=
  { loanType := LoanProgram.Conventional
    appraisedValue := 100000
    balance := 90000
    cashOut := 0
    monthlyEscrow := 0
    escrowMonths := 2
    bankFee := 0
    titleFee := 0
    isFundingFeeExempt := false
    mortgageInsuranceRate := 0.006
    uwmPoints := 0
    branchGenPointsInput := 0
    interestRate := 0
    termYears := 30
    twoOneBuydown := false
    oneZeroBuydown := false
    debtPaid := 0
    debtMonthly := 0
    currentPITI := 0
    pureCashOut := false }

/-- VA IRRRL scenario with a nonzero raw cash-out field and nonzero debt
fields. -/
def inputC5 : ScenarioInput :=
  { loanType := LoanProgram.VA_IRRRL
    appraisedValue := 300000
    balance := 200000
    cashOut := 5000
    monthlyEscrow := 0
    escrowMonths := 2
    bankFee := 1500
    titleFee := 0
    isFundingFeeExempt := false
    mortgageInsuranceRate := 0.006
    uwmPoints := 0
    branchGenPointsInput := 0
    interestRate := 6
    termYears := 30
    twoOneBuydown := false
    oneZeroBuydown := false
    debtPaid := 1000
    debtMonthly := 50
    currentPITI := 0
    pureCashOut := false }

/-- The section 8 consolidation scenario: cash-out 20000, debt paid off
15000, monthly debt payments 500, previous PITI 2200. -/
def inputC7 : ScenarioInput :=
  { loanType := LoanProgram.Conventional
    appraisedValue := 0
    balance := 100000
    cashOut := 20000
    monthlyEscrow := 0
    escrowMonths := 2
    bankFee := 0
    titleFee := 0
    isFundingFeeExempt := false
    mortgageInsuranceRate := 0.006
    uwmPoints := 0
    branchGenPointsInput := 0
    interestRate := 0
    termYears := 30
    twoOneBuydown := false
    oneZeroBuydown := false
    debtPaid := 15000
    debtMonthly := 500
    currentPITI := 2200
    pureCashOut := false }

/-- Scenario with a zero appraised value (the LTV division guard case). -/
def inputC8 : ScenarioInput :=
  { loanType := LoanProgram.Conventional
    appraisedValue := 0
    balance := 100000
    cashOut := 0
    monthlyEscrow := 0
    escrowMonths := 2
    bankFee := 2350
    titleFee := 0
    isFundingFeeExempt := false
    mortgageInsuranceRate := 0.006
    uwmPoints := 0
    branchGenPointsInput := 0
    interestRate := 6
    termYears := 30
    twoOneBuydown := false
    oneZeroBuydown := false
    debtPaid := 0
    debtMonthly := 0
    currentPITI := 0
    pureCashOut := false }

/-! ## Claim theorems -/

/-- C3: for every input, the government fee charged on top of
`baseLoanBeforePoints` equals that base times 3.3 percent for VA, 0.5
percent for VA IRRRL (both zero when the exemption flag is set), 1.75
percent for FHA regardless of the exemption flag, and 0 for
Conventional; and `baseLoanWithGovFee` is the base plus that fee. -/
theorem governmentFee_rate_table (i : ScenarioInput) :
    governmentFee i = baseLoanBeforePoints i * specGovFeeRate i.loanType i.isFundingFeeExempt ∧
    baseLoanWithGovFee i = baseLoanBeforePoints i + governmentFee i := by
  constructor
  · cases h : i.loanType <;> cases hex : i.isFundingFeeExempt <;>
      simp [governmentFee, fundingFee, ufmip, specGovFeeRate, h, hex] <;>
      norm_num [VA_FUNDING_FEE_RATE, VA_IRRRL_FEE_RATE, FHA_UFMIP_RATE]
  · simp [baseLoanWithGovFee, governmentFee]
    ring

/-- C3 witness: the theorem instantiated at the VA IRRRL input. -/
theorem governmentFee_rate_table_witness :
    governmentFee inputC5 =
      baseLoanBeforePoints inputC5 * specGovFeeRate inputC5.loanType inputC5.isFundingFeeExempt ∧
    baseLoanWithGovFee inputC5 = baseLoanBeforePoints inputC5 + governmentFee inputC5 :=
  governmentFee_rate_table inputC5

/-- C5: under VA IRRRL the effective cash-out is 0 and the returned cash
to borrower is 0 whatever the raw cash-out field holds, and no
consolidation treatment applies. -/
theorem va_irrrl_forces_zero_cashout (i : ScenarioInput)
    (h : i.loanType = LoanProgram.VA_IRRRL) :
    effectiveCashOut i = 0 ∧ cashToBorrower i = 0 ∧ ¬ isConsolidating i := by
  have heff : effectiveCashOut i = 0 := by simp [effectiveCashOut, h]
  have hcons : ¬ isConsolidating i := by
    intro hc
    rw [isConsolidating, heff] at hc
    exact absurd hc.1 (lt_irrefl 0)
  refine ⟨heff, ?_, hcons⟩
  rw [cashToBorrower, if_neg hcons, heff]

/-- C5 witness: the VA IRRRL input with raw cash-out 5000 and nonzero
debt fields still yields zero effective cash-out and cash to borrower. -/
theorem va_irrrl_forces_zero_cashout_witness :
    effectiveCashOut inputC5 = 0 ∧ cashToBorrower inputC5 = 0 ∧ ¬ isConsolidating inputC5 :=
  va_irrrl_forces_zero_cashout inputC5 rfl

/-- C7: consolidation applies exactly when the effective cash-out is
positive, the pure-cash-out flag is off, and a debt field is positive;
when consolidating the debt paid off is capped at the effective
cash-out and the remainder goes to the borrower, and when not
consolidating nothing is applied to debt and the full effective
cash-out goes to the borrower. -/
theorem consolidation_split (i : ScenarioInput) :
    (isConsolidating i ↔
      effectiveCashOut i > 0 ∧ i.pureCashOut = false ∧ (i.debtPaid > 0 ∨ i.debtMonthly > 0)) ∧
    (isConsolidating i →
      debtPaidApplied i = min (effectiveCashOut i) i.debtPaid ∧
      cashToBorrower i = max 0 (effectiveCashOut i - debtPaidApplied i)) ∧
    (¬ isConsolidating i →
      debtPaidApplied i = 0 ∧ cashToBorrower i = effectiveCashOut i) := by
  refine ⟨Iff.rfl, fun h => ⟨?_, ?_⟩, fun h => ⟨?_, ?_⟩⟩
  · rw [debtPaidApplied, if_pos h]
  · rw [cashToBorrower, if_pos h]
  · rw [debtPaidApplied, if_neg h]
  · rw [cashToBorrower, if_neg h]

/-- C7 witness: the section 8 consolidation scenario is consolidating,
and the split formulas hold there. -/
theorem consolidation_split_witness :
    debtPaidApplied inputC7 = min (effectiveCashOut inputC7) inputC7.debtPaid ∧
    cashToBorrower inputC7 = max 0 (effectiveCashOut inputC7 - debtPaidApplied inputC7) :=
  (consolidation_split inputC7).2.1
    ⟨by simp [effectiveCashOut, inputC7], rfl, Or.inl (by simp [inputC7])⟩

/-- C8: both division-by-zero hazards are special-cased — when the
monthly rate `max(0, apr)/100/12` is 0 the payment is the straight-line
`principal / nper` with `nper = max 1 (termYears * 12)`, and when the
appraised value is not positive the loan-to-value ratio is reported as
0. -/
theorem division_fallbacks :
    (∀ (aprPct principal : ℚ) (t : ℕ), max 0 aprPct / 100 / 12 = 0 →
      monthlyPI aprPct principal t = principal / ((max 1 (t * 12) : ℕ) : ℚ)) ∧
    (∀ i : ScenarioInput, i.appraisedValue ≤ 0 → ltv i = 0) := by
  constructor
  · intro aprPct principal t h
    simp only [monthlyPI]
    rw [if_pos h]
  · intro i h
    rw [ltv, if_neg (not_lt.mpr h)]

/-- C8 witness: a zero rate gives the straight-line payment and a zero
appraised value gives LTV 0. -/
theorem division_fallbacks_witness :
    monthlyPI 0 1200 30 = 1200 / ((max 1 (30 * 12) : ℕ) : ℚ) ∧ ltv inputC8 = 0 :=
  ⟨division_fallbacks.1 0 1200 30 (by norm_num),
   division_fallbacks.2 inputC8 (by norm_num [inputC8])⟩

/-- C9 counterexample: in the main variant, the boundary normalizer `n`
applied to a non-numeric value does not produce 0 — it produces
`Number(v) = NaN` (modelled `none`), contradicting the claim that every
invalid numeric input is normalized to 0 before computation. -/
theorem nMain_nonNumeric_not_zero : nMain NumField.nonNumeric ≠ some 0 := by
  simp [nMain]

/-- C9 amended: blank inputs normalize to 0 in both variants and valid
numbers pass through; a non-finite value is normalized to 0 only by the
Copy variant (whose `n` checks `isFinite`), while the main variant maps
it to NaN. -/
theorem normalization_behavior :
    (∀ q : ℚ, nCopy (NumField.num q) = q) ∧
    nCopy NumField.blank = 0 ∧
    nCopy NumField.nonNumeric = 0 ∧
    nMain NumField.blank = some 0 ∧
    (∀ q : ℚ, nMain (NumField.num q) = some q) ∧
    nMain NumField.nonNumeric = none :=
  ⟨fun _ => rfl, rfl, rfl, rfl, fun _ => rfl, rfl⟩

/-- C10: a blank bank-fee field is replaced by the program default —
1500 under VA IRRRL and 2350 under every other program — so it never
enters the derivation as the 0 that blank fields otherwise normalize
to; a non-blank field is left unchanged. -/
theorem bankFee_blank_default :
    (∀ p : LoanProgram,
      bankFeeDefaultEffect p none = some (if p = LoanProgram.VA_IRRRL then 1500 else 2350)) ∧
    bankFeeDefaultEffect LoanProgram.VA_IRRRL none = some 1500 ∧
    bankFeeDefaultEffect LoanProgram.Conventional none = some 2350 ∧
    (∀ p : LoanProgram, bankFeeDefaultEffect p none ≠ some 0) ∧
    (∀ (p : LoanProgram) (q : ℚ), bankFeeDefaultEffect p (some q) = some q) := by
  refine ⟨fun p => rfl, by norm_num [bankFeeDefaultEffect], by simp [bankFeeDefaultEffect],
    fun p => ?_, fun p q => rfl⟩
  cases p <;> simp [bankFeeDefaultEffect]

/-- C1: the buydown subsidy is computed from the raw buydown flags and
the program alone — with a 2/1 buydown flag set and effective cash-out
10000 the code still produces a positive subsidy and finances it into
the final loan amount, instead of returning 0. -/
theorem buydownSubsidy_computed_despite_cashout :
    inputC1.loanType = LoanProgram.Conventional ∧
    inputC1.twoOneBuydown = true ∧
    0 < effectiveCashOut inputC1 ∧
    0 < buydownSubsidyCost inputC1 ∧
    finalLoanPreBuydown inputC1 < finalLoanAmount inputC1 := by
  have hsub : 0 < buydownSubsidyCost inputC1 := by
    simp [buydownSubsidyCost, diffY1, diffY2, basePITI_pre, y1PITI_pre, y2PITI_pre,
      PI_pre, y1PI_pre, y2PI_pre, y1RatePct_pre, y2RatePct_pre, mipMonthly_pre, miMonthly_pre,
      ltv_pre, finalLoanPreBuydown, baseTotalCostsNoBuydown, pointsCost, baseLoanWithGovFee,
      totalPointsEntered, fundingFee, ufmip, baseLoanBeforePoints, escrowCost, effectiveCashOut,
      monthlyPI, inputC1]
    norm_num [max_def]
  refine ⟨rfl, rfl, by simp [effectiveCashOut, inputC1], hsub, ?_⟩
  have hdef : finalLoanAmount inputC1 = finalLoanPreBuydown inputC1 + buydownSubsidyCost inputC1 :=
    rfl
  rw [hdef]
  linarith

/-- The final loan amount of the section 8 reference scenario. -/
lemma inputC2_finalLoanAmount : finalLoanAmount inputC2 = 302350 := by
  simp [finalLoanAmount, buydownSubsidyCost, finalLoanPreBuydown, baseTotalCostsNoBuydown,
    pointsCost, baseLoanWithGovFee, totalPointsEntered, fundingFee, ufmip,
    baseLoanBeforePoints, escrowCost, effectiveCashOut, inputC2]
  norm_num

/-- The loan-to-value ratio of the section 8 reference scenario. -/
lemma inputC2_ltv : ltv inputC2 = 75.5875 := by
  rw [ltv, inputC2_finalLoanAmount]
  norm_num [inputC2]

/-- The monthly mortgage insurance of the section 8 reference scenario. -/
lemma inputC2_miMonthly : miMonthly inputC2 = 0 := by
  rw [miMonthly, if_neg]
  rw [inputC2_ltv]
  norm_num

/-- The principal-and-interest payment of the section 8 reference
scenario as a closed-form rational. -/
lemma inputC2_PI : PI inputC2 = monthlyPI 6.5 302350 30 := by
  rw [PI, inputC2_finalLoanAmount]
  rfl

/-- C2 counterexample: in the section 8 reference scenario the engine's
monthly principal and interest exceeds 1911, so it is not approximately
1909.66 as claimed (the exact value is about 1911.06). -/
theorem scenario_PI_not_1909_66 : (1911 : ℚ) < PI inputC2 := by
  rw [inputC2_PI]
  simp only [monthlyPI]
  norm_num

/-- C2 amended: in the section 8 reference scenario the LTV is exactly
75.5875 percent, there is no mortgage insurance, the monthly principal
and interest lies strictly between 1911.05 and 1911.06, and the total
monthly PITI equals that payment. -/
theorem scenario_conventional_300k_values :
    ltv inputC2 = 75.5875 ∧ miMonthly inputC2 = 0 ∧
    (1911.05 : ℚ) < PI inputC2 ∧ PI inputC2 < 1911.06 ∧
    basePITI inputC2 = PI inputC2 := by
  refine ⟨inputC2_ltv, inputC2_miMonthly, ?_, ?_, ?_⟩
  · rw [inputC2_PI]
    simp only [monthlyPI]
    norm_num
  · rw [inputC2_PI]
    simp only [monthlyPI]
    norm_num
  · rw [basePITI, inputC2_miMonthly, mipMonthly, if_neg (by simp [inputC2])]
    simp [inputC2]

/-- The final loan amount of the high-LTV mortgage-insurance scenario. -/
lemma inputC4_finalLoanAmount : finalLoanAmount inputC4 = 90000 := by
  simp [finalLoanAmount, buydownSubsidyCost, finalLoanPreBuydown, baseTotalCostsNoBuydown,
    pointsCost, baseLoanWithGovFee, totalPointsEntered, fundingFee, ufmip,
    baseLoanBeforePoints, escrowCost, effectiveCashOut, inputC4]

/-- The loan-to-value ratio of the high-LTV mortgage-insurance
scenario. -/
lemma inputC4_ltv : ltv inputC4 = 90 := by
  rw [ltv, inputC4_finalLoanAmount]
  norm_num [inputC4]

/-- C4 counterexample: at LTV 90 with the stored rate 0.006 (displayed
0.600 percent) the code computes a monthly MI of 45, while the claimed
percent-convention formula gives 4500 — the claim is off by a factor of
100. -/
theorem miMonthly_percent_convention_fails :
    miMonthly inputC4 = 45 ∧
    specMiMonthlyClaim inputC4.loanType (finalLoanAmount inputC4) (ltv inputC4)
      (100 * inputC4.mortgageInsuranceRate) = 4500 ∧
    miMonthly inputC4 ≠ specMiMonthlyClaim inputC4.loanType (finalLoanAmount inputC4)
      (ltv inputC4) (100 * inputC4.mortgageInsuranceRate) := by
  have h1 : miMonthly inputC4 = 45 := by
    rw [miMonthly, if_pos]
    · rw [inputC4_finalLoanAmount]
      norm_num [inputC4]
    · refine ⟨rfl, ?_⟩
      rw [inputC4_ltv]
      norm_num
  have h2 : specMiMonthlyClaim inputC4.loanType (finalLoanAmount inputC4) (ltv inputC4)
      (100 * inputC4.mortgageInsuranceRate) = 4500 := by
    rw [specMiMonthlyClaim, if_pos]
    · rw [inputC4_finalLoanAmount]
      norm_num [inputC4]
    · refine ⟨rfl, ?_⟩
      rw [inputC4_ltv]
      norm_num
  refine ⟨h1, h2, ?_⟩
  rw [h1, h2]
  norm_num

/-- C4 amended: the engine's monthly mortgage insurance equals the
spec's formula once the annual percent rate is divided by 100, i.e.
monthly MI is `finalLoanAmount * (ratePercent / 100) / 12` when the
program is Conventional and LTV exceeds 80, and 0 otherwise. -/
theorem miMonthly_matches_fraction_convention (i : ScenarioInput) :
    miMonthly i = specMiMonthlyAmended i.loanType (finalLoanAmount i) (ltv i)
      (100 * i.mortgageInsuranceRate) := by
  rw [miMonthly, specMiMonthlyAmended]
  split_ifs with h
  · rw [mul_div_cancel_left₀ _ (by norm_num : (100 : ℚ) ≠ 0)]
  · rfl

/-- C4 amended witness: the theorem instantiated at the high-LTV
scenario. -/
theorem miMonthly_matches_fraction_convention_witness :
    miMonthly inputC4 = specMiMonthlyAmended inputC4.loanType (finalLoanAmount inputC4)
      (ltv inputC4) (100 * inputC4.mortgageInsuranceRate) :=
  miMonthly_matches_fraction_convention inputC4

/-- The source tier derivation agrees everywhere with the step function
worded in claim C6. -/
lemma deriveBgTier_eq_specTier (bg : ℚ) : deriveBgTier bg = specTier bg := by
  simp only [deriveBgTier, specTier, ge_iff_le, ite_self]
  norm_num

/-- C6: the inferred pricing tier is the deterministic step function of
the branch-generated points alone, with the exact boundaries of the
claim; the listed boundary points evaluate as stated, and the missing
tier carries zero compensation basis points for both roles. -/
theorem bgTier_step_function :
    (∀ i : ScenarioInput, inferredBgTier i = specTier i.branchGenPointsInput) ∧
    (∀ bg : ℚ, deriveBgTier bg = specTier bg) ∧
    deriveBgTier 0.75 = BgTier.BG3 ∧
    deriveBgTier 1.50 = BgTier.BG2 ∧
    deriveBgTier 2.25 = BgTier.BG1 ∧
    deriveBgTier 3.01 = BgTier.noTier ∧
    deriveBgTier 0 = BgTier.noTier ∧
    LO_COMP_BPS BgTier.noTier = 0 ∧ LOA_COMP_BPS BgTier.noTier = 0 := by
  refine ⟨fun i => deriveBgTier_eq_specTier i.branchGenPointsInput,
    deriveBgTier_eq_specTier, ?_, ?_, ?_, ?_, ?_, rfl, rfl⟩ <;> norm_num [deriveBgTier]

end UltimateMortgage
